import Mathlib

/-!
Verification of the Transactional-Python-Samples Flask application
(`src/FlaskApp/`) against its natural-language specification.

The repository is glue code around a remote transactional-messaging API.
We embed the pure control flow of each relevant Python function as a Lean
definition.  Remote calls (`client.templates.list`, `client.templates.add`,
`requests.post`, `mailchimp.messages.send`) are external collaborators: each
function receives the remote outcome as an explicit `Except`/`Option`
argument (the oracle for the single call the Python code makes).  Raised
Python exceptions are modelled as `Except.error`; `print`/`flash` output that
a claim talks about is returned explicitly.  Library routines that are not
part of the repository (`json.loads`, UTF-8 decoding of `bytes`) are passed
in as oracle functions.
-/

/- ### A model of dynamically-typed Python values

`app.py`'s `template_exists` and `sms_single_recipient.py` manipulate
arbitrary decoded-JSON / client-returned values with `isinstance` checks and
truthiness tests, so we need a small model of Python runtime values.  `bytes`
carry their raw content (as numbers); dict fields model a Python dict read
via its first occurrence of a key. -/
inductive PyObj : Type where
  | pyNone : PyObj
  | pyBool (b : Bool) : PyObj
  | pyInt (n : Int) : PyObj
  | pyStr (s : String) : PyObj
  | pyBytes (content : List Nat) : PyObj
  | pyList (xs : List PyObj) : PyObj
  | pyDict (fields : List (String × PyObj)) : PyObj

/-- Python truthiness (`if x:`) for the values of our model. -/
def pyTruthy : PyObj → Bool
  | .pyNone => false
  | .pyBool b => b
  | .pyInt n => n != 0
  | .pyStr s => s != ""
  | .pyBytes content => !content.isEmpty
  | .pyList xs => !xs.isEmpty
  | .pyDict fields => !fields.isEmpty

/-- Python `d.get(k)` on a dict: `some v` if the key is present, `none`
(Python `None`) otherwise. -/
def pyDictGet (fields : List (String × PyObj)) (k : String) : Option PyObj :=
  (fields.find? (fun f => f.1 == k)).map (fun f => f.2)

/- ### `template_exists` from `src/FlaskApp/app.py` (lines 26-61)

The Mandrill client's `templates.list()` return value is the oracle
`resp : Except Unit PyObj` (`.error` = the call raised).  `json.loads` is
the oracle `loads : String → Option PyObj` (`none` = `json.loads` raised)
and UTF-8 decoding of `bytes` is `utf8 : List Nat → Option String`
(`none` = `.decode` raised). -/

/-- The debug block at app.py lines 37-39:
`if templates: print(... type(templates[0]) if len(templates) > 0 ...)`.
`len` raises `TypeError` on truthy non-sized values (ints, `True`), and
`templates[0]` raises `KeyError` on a non-empty dict (its keys are strings),
so this `print` can itself raise; `.error` records that. -/
def debugStep : PyObj → Except Unit Unit
  | .pyNone => .ok ()
  | .pyBool b => if b then .error () else .ok ()
  | .pyInt n => if n != 0 then .error () else .ok ()
  | .pyStr _ => .ok ()
  | .pyBytes _ => .ok ()
  | .pyList _ => .ok ()
  | .pyDict fields => if fields.isEmpty then .ok () else .error ()

/-- app.py lines 42-45: decode a top-level `bytes`/`str` response with
`json.loads`; other shapes pass through unchanged. -/
def topDecode (loads : String → Option PyObj) (utf8 : List Nat → Option String) :
    PyObj → Except Unit PyObj
  | .pyBytes content =>
      match utf8 content with
      | some s => match loads s with
        | some v => .ok v
        | none => .error ()
      | none => .error ()
  | .pyStr s =>
      match loads s with
      | some v => .ok v
      | none => .error ()
  | t => .ok t

/-- app.py lines 51-52: a list entry that is `bytes`/`str` is itself decoded
with `json.loads`; other entries pass through. -/
def entryDecode (loads : String → Option PyObj) (utf8 : List Nat → Option String) :
    PyObj → Except Unit PyObj
  | .pyBytes content =>
      match utf8 content with
      | some s => match loads s with
        | some v => .ok v
        | none => .error ()
      | none => .error ()
  | .pyStr s =>
      match loads s with
      | some v => .ok v
      | none => .error ()
  | t => .ok t

/-- app.py line 53: `isinstance(t, dict) and t.get('name') == template_name`.
Python `==` against the string `template_name` holds exactly for an equal
string value (a missing key yields `None`, which compares unequal). -/
def entryIsMatch (template_name : String) : PyObj → Bool
  | .pyDict fields =>
      match pyDictGet fields "name" with
      | some (.pyStr s) => s == template_name
      | _ => false
  | _ => false

/-- The `for t in templates` loop of app.py lines 49-54, returning `true` as
soon as a (decoded) entry is a dict with the queried name; a failing decode
raises out of the loop. -/
def scanEntries (loads : String → Option PyObj) (utf8 : List Nat → Option String)
    (template_name : String) : List PyObj → Except Unit Bool
  | [] => .ok false
  | t :: rest => do
      let t2 ← entryDecode loads utf8 t
      if entryIsMatch template_name t2 then
        .ok true
      else
        scanEntries loads utf8 template_name rest

/-- The body of app.py's `template_exists` inside the `try`. -/
def templateExistsAppRun (loads : String → Option PyObj)
    (utf8 : List Nat → Option String) (template_name : String)
    (resp : Except Unit PyObj) : Except Unit Bool := do
  let templates ← resp
  debugStep templates
  let templates ← topDecode loads utf8 templates
  match templates with
  | .pyList ts => scanEntries loads utf8 template_name ts
  | _ => .ok false

/-- `template_exists` from app.py lines 26-61: the two `except` handlers
(`ApiClientError` and bare `Exception`) turn every raised exception into
`False`. -/
def template_exists_app (loads : String → Option PyObj)
    (utf8 : List Nat → Option String) (template_name : String)
    (resp : Except Unit PyObj) : Bool :=
  match templateExistsAppRun loads utf8 template_name resp with
  | .ok b => b
  | .error _ => false

/- ### The template registry and ensure/create flow
(`src/FlaskApp/email_with_template.py`, `create_template.py`, and
`createTemplate` in `app.py`) -/

/-- A `mailchimp_transactional.api_client.ApiClientError`: only its `.text`
is read by the code. -/
structure ApiError : Type where
  text : String
deriving DecidableEq

/-- An entry of the parsed `templates.list` response as consumed by
`email_with_template.template_exists` (it reads exactly `t['name']`). -/
structure RemoteTemplate : Type where
  name : String
deriving DecidableEq

/-- The parsed `templates.add` response; `create_template.py` and
`app.createTemplate` read `name`, `slug`, `created_at`, `publish_name`. -/
structure AddResponse : Type where
  name : String
  slug : String
  created_at : Option String
  publish_name : Option String
deriving DecidableEq

/-- The payload handed to `templates.add` (email_with_template.py lines
93-102, app.py lines 569-578, create_template.py lines 30-45). -/
structure TemplateData : Type where
  name : String
  from_email : String
  from_name : String
  subject : String
  code : String
  text : String
  publish : Bool
  labels : List String
deriving DecidableEq

/-- Remote boundary of the template flow: the outcome of the one
`templates.list` call and, per payload, of the one `templates.add` call. -/
structure Remote : Type where
  listResult : Except ApiError (List RemoteTemplate)
  addResult : TemplateData → Except ApiError AddResponse

/-- Network calls a template operation performs, in order. -/
inductive Call : Type where
  | list : Call
  | add : Call
deriving DecidableEq

/-- An entry of the static `TEMPLATES` registry
(email_with_template.py lines 27-52). -/
structure TemplateDef : Type where
  name : String
  subject : String
  code : String
  text : String
  labels : List String
  mc_edit_region : String
deriving DecidableEq

/-- The `template1` entry of the registry (email_with_template.py lines
28-39). -/
def template1Def : TemplateDef :=
  { name := "template1"
    subject := "Hello \x7b\x7bfname\x7d\x7d!"
    code := "<h1>Hello \x7b\x7bfname\x7d\x7d!</h1>\n                <div mc:edit=\"welcome_message\">\n                  <p>Welcome to \x7b\x7bcompany_name\x7d\x7d.</p>\n                </div>\n                <p>Your account: \x7b\x7baccount_id\x7d\x7d</p>"
    text := "This is a simple greetings from template1."
    labels := ["demo", "hello"]
    mc_edit_region := "welcome_message" }

/-- The `template2` entry of the registry (email_with_template.py lines
40-51). -/
def template2Def : TemplateDef :=
  { name := "template2"
    subject := "Greetings \x7b\x7bfname\x7d\x7d!"
    code := "<h1>Greetings \x7b\x7bfname\x7d\x7d!</h1>\n                <p>Hope your Account: \x7b\x7baccount_id\x7d\x7d is all set in Company: \x7b\x7bcompany_name\x7d\x7d</p>\n                <div mc:edit=\"goodbye_message\">\n                  <p>We will see you soon \x7b\x7bcompany_name\x7d\x7d.</p>\n                </div>"
    text := "This is a simple greetings from template2."
    labels := ["demo", "hello"]
    mc_edit_region := "goodbye_message" }

/-- The static template registry `TEMPLATES` from email_with_template.py
lines 27-52, as an association list (key, definition). -/
def TEMPLATES : List (String × TemplateDef) :=
  [("template1", template1Def), ("template2", template2Def)]

/-- Python `os.getenv(key, default)`. -/
def getenvD (env : String → Option String) (key dflt : String) : String :=
  (env key).getD dflt

/-- `template_exists` from email_with_template.py lines 66-75: one
`templates.list` call; any `ApiClientError` is collapsed to `False`. -/
def template_exists (remote : Remote) (template_name : String) : Bool :=
  match remote.listResult with
  | .ok templates => templates.any (fun t => t.name == template_name)
  | .error _ => false

/-- The `template_data` dict built in email_with_template.py lines 93-102. -/
def buildTemplateData (env : String → Option String) (td : TemplateDef) : TemplateData :=
  { name := td.name
    from_email := getenvD env "DEFAULT_FROM_EMAIL" "test@example.org"
    from_name := getenvD env "DEFAULT_FROM_NAME" "Test Sender"
    subject := td.subject
    code := td.code
    text := td.text
    publish := false
    labels := td.labels }

/-- `ensure_template_exists` from email_with_template.py lines 78-111.
Returns the Python return value, the network calls performed (in order),
and the lines printed (the operation's user-facing communication). -/
def ensure_template_exists (remote : Remote) (env : String → Option String)
    (template_name : String) : Bool × List Call × List String :=
  if template_exists remote template_name then
    (true, [Call.list], ["Template \"" ++ template_name ++ "\" already exists."])
  else
    match TEMPLATES.find? (fun p => p.1 == template_name) with
    | none => (false, [Call.list], ["Unknown template: " ++ template_name])
    | some p =>
      let template_data := buildTemplateData env p.2
      match remote.addResult template_data with
      | .ok _ =>
          (true, [Call.list, Call.add],
           ["Template \"" ++ template_name ++ "\" created successfully!"])
      | .error e =>
          (false, [Call.list, Call.add],
           ["Error creating template: " ++ e.text])

/-- Whether the first character list starts the second. -/
def leadsWith : List Char → List Char → Bool
  | [], _ => true
  | _ :: _, [] => false
  | a :: as, b :: bs => a == b && leadsWith as bs

/-- Whether the first character list occurs inside the second. -/
def occursIn (pat : List Char) : List Char → Bool
  | [] => leadsWith pat []
  | c :: rest => leadsWith pat (c :: rest) || occursIn pat rest

/-- Python `pat in s` on strings (substring test). -/
def pyInStr (pat s : String) : Bool :=
  occursIn pat.toList s.toList

/-- The `template_data` literal of `create_template` in create_template.py
lines 30-45. -/
def helloTemplateData (env : String → Option String) : TemplateData :=
  { name := "hello-template"
    from_email := getenvD env "DEFAULT_FROM_EMAIL" "test@example.org"
    from_name := getenvD env "DEFAULT_FROM_NAME" "Test Sender"
    subject := "Hello \x7b\x7bfname\x7d\x7d!"
    code := "\n            <h1>Hello \x7b\x7bfname\x7d\x7d!</h1>\n            <div mc:edit=\"welcome_message\">\n                <p>Welcome to \x7b\x7bcompany_name\x7d\x7d.</p>\n            </div>\n            <p>Your account: \x7b\x7baccount_id\x7d\x7d</p>\n        "
    text := "Hello \x7b\x7bfname\x7d\x7d!\n\nWelcome to \x7b\x7bcompany_name\x7d\x7d.\nYour account: \x7b\x7baccount_id\x7d\x7d"
    publish := false
    labels := ["hello", "demo"] }

/-- `create_template` from create_template.py lines 26-74.  Returns the
Python return value (`None` on any `ApiClientError`) and whether the
"already exists" hint branch at lines 69-71 was taken — on that branch the
function still returns `None`. -/
def create_template (remote : Remote) (env : String → Option String) :
    Option AddResponse × Bool :=
  match remote.addResult (helloTemplateData env) with
  | .ok response => (some response, false)
  | .error e =>
      (none, pyInStr "A template with that name already exists" e.text)

/-- A Flask `flash(text, category)` message. -/
structure Flash : Type where
  text : String
  category : String
deriving DecidableEq

/-- `createTemplate` from app.py lines 541-586.  Its existence check is
app.py's own `template_exists` (the `PyObj`-shaped one), so it takes that
check's oracles; `addResult` is the `templates.add` boundary.  Returns the
network calls performed and the flashed messages; the Python function
always returns `None`. -/
def createTemplate (loads : String → Option PyObj)
    (utf8 : List Nat → Option String) (resp : Except Unit PyObj)
    (addResult : TemplateData → Except ApiError AddResponse)
    (env : String → Option String) (templateName : String) :
    List Call × List Flash :=
  if template_exists_app loads utf8 templateName resp then
    ([Call.list],
     [{ text := "Template \"" ++ templateName ++ "\" already exists. No new template created."
        category := "warning" }])
  else
    match TEMPLATES.find? (fun p => p.1 == templateName) with
    | none =>
        ([Call.list],
         [{ text := "Unknown template: " ++ templateName, category := "error" }])
    | some p =>
      let template_data := buildTemplateData env p.2
      match addResult template_data with
      | .ok response =>
          ([Call.list, Call.add],
           [{ text := "Template created: " ++ response.name, category := "info" }])
      | .error _ => ([Call.list, Call.add], [])

/- ### Message payload builders (`app.py`)

`config.py` only reads five environment settings with fallbacks; the
builders consume them through this record. -/

/-- The settings exported by `config.py` that the builders read. -/
structure Config : Type where
  MANDRILL_API_KEY : String
  DEFAULT_FROM_EMAIL : String
  DEFAULT_FROM_NAME : String
  DEFAULT_TO_EMAIL : String
  DEFAULT_TO_NAME : String
deriving DecidableEq

/-- A `to` entry of a message payload. -/
structure Recipient : Type where
  email : String
  name : String
  type : String
deriving DecidableEq

/-- The `message` dict of `send_single_email` (app.py lines 278-292). -/
structure BasicMessage : Type where
  html : String
  text : String
  subject : String
  from_email : String
  from_name : String
  «to» : List Recipient
  headers : List (String × String)
deriving DecidableEq

/-- `send_single_email`'s payload construction, app.py lines 278-292. -/
def send_single_email_message (cfg : Config) : BasicMessage :=
  { html := "<p>Hello HTML world! from Mailchimp transactional API Demo</p>"
    text := "Hello plain world! from Mailchimp transactional API Demo"
    subject := "Hello world"
    from_email := cfg.DEFAULT_FROM_EMAIL
    from_name := cfg.DEFAULT_FROM_NAME
    «to» := [{ email := cfg.DEFAULT_TO_EMAIL, name := cfg.DEFAULT_TO_NAME, type := "to" }]
    headers := [("Reply-To", cfg.DEFAULT_FROM_EMAIL)] }

/-- Python `request.form.get(key, default)`. -/
def formGetD (form : String → Option String) (key dflt : String) : String :=
  (form key).getD dflt

/-- A `{'name': ..., 'content': ...}` merge variable. -/
structure MergeVar : Type where
  name : String
  content : String
deriving DecidableEq

/-- A per-recipient `{'rcpt': ..., 'vars': [...]}` merge-variable entry. -/
structure RcptVars : Type where
  rcpt : String
  vars : List MergeVar
deriving DecidableEq

/-- The `message` dict of `send_email_with_merge_tags`
(app.py lines 99-143). -/
structure MergeMessage : Type where
  html : String
  text : String
  subject : String
  from_email : String
  from_name : String
  «to» : List Recipient
  headers : List (String × String)
  global_merge_vars : List MergeVar
  merge_vars : List RcptVars
  merge_language : String
deriving DecidableEq

/-- `send_email_with_merge_tags`' payload construction, app.py lines
99-143.  Handlebars braces in the literals are written `\x7b`/`\x7d`. -/
def send_email_with_merge_tags_message (cfg : Config)
    (form : String → Option String) : MergeMessage :=
  { html := "\n                <h1>Welcome \x7b\x7bfname\x7d\x7d!</h1>\n                <p>Hi \x7b\x7bfname\x7d\x7d \x7b\x7blname\x7d\x7d,</p>\n                <p>Thanks for joining the \x7b\x7bcompany_name\x7d\x7d! Your account is now active.</p>\n                <p>Your membership level: \x7b\x7bmembership_level\x7d\x7d</p>\n                <p>Best regards,<br>The \x7b\x7bcompany_name\x7d\x7d Team</p>\n            "
    text := "\n                Welcome \x7b\x7bfname\x7d\x7d!\n                \n                Hi \x7b\x7bfname\x7d\x7d \x7b\x7blname\x7d\x7d,\n                \n                Thanks for joining the \x7b\x7bcompany_name\x7d\x7d! Your account is now active.\n                Your membership level: \x7b\x7bmembership_level\x7d\x7d\n                \n                Best regards,\n                The \x7b\x7bcompany_name\x7d\x7d Team\n            "
    subject := "Welcome to \x7b\x7bcompany_name\x7d\x7d, \x7b\x7bfname\x7d\x7d!"
    from_email := cfg.DEFAULT_FROM_EMAIL
    from_name := cfg.DEFAULT_FROM_NAME
    «to» := [{ email := cfg.DEFAULT_TO_EMAIL, name := cfg.DEFAULT_TO_NAME, type := "to" }]
    headers := [("Reply-To", cfg.DEFAULT_FROM_EMAIL)]
    global_merge_vars :=
      [{ name := "company_name", content := formGetD form "companyName" "Intuit Developer Program" },
       { name := "membership_level", content := formGetD form "membershipLevel" "Premium" }]
    merge_vars :=
      [{ rcpt := cfg.DEFAULT_TO_EMAIL
         vars := [{ name := "fname", content := formGetD form "firstName" "John" },
                  { name := "lname", content := formGetD form "lastName" "Smith" }] }]
    merge_language := "handlebars" }

/- ### Result rendering (`app.py`)

The remote `messages.send` success shape the code handles is a list of
per-recipient dicts reading `email`, `status` and `_id`. -/

/-- One per-recipient entry of a `messages.send` result list. -/
structure RecipientResult : Type where
  email : String
  status : String
  _id : String
deriving DecidableEq

/-- Status rendering of `send_email_with_merge_tags` for a list result,
app.py lines 148-150. -/
def send_email_with_merge_tags_status (result : List RecipientResult) : String :=
  String.intercalate "<br>"
    (result.map (fun r => "send_email_with_merge_tags to : " ++ r.email ++ ": " ++ r.status))

/-- Status rendering of `send_email_with_attachments` for a list result,
app.py lines 214-216. -/
def send_email_with_attachments_status (result : List RecipientResult) : String :=
  String.intercalate "<br>" (result.map (fun r => r.email ++ ": " ++ r.status))

/-- Status rendering of `send_bulk_email` for a list result,
app.py lines 404-406. -/
def send_bulk_email_status (result : List RecipientResult) : String :=
  String.intercalate "<br>" (result.map (fun r => r.email ++ ": " ++ r.status))

/-- Status rendering of `send_email_with_template` for a list result,
app.py lines 486-488. -/
def send_email_with_template_status (result : List RecipientResult) : String :=
  String.intercalate "<br>" (result.map (fun r => r.email ++ ": " ++ r.status))

/-- Status rendering of `send_single_email`, app.py lines 296-300: only the
first entry is reported; an empty list falls into the
`Unexpected result structure` branch (Python formats `[]`). -/
def send_single_email_status (result : List RecipientResult) : String :=
  match result with
  | r :: _ =>
      "Status: " ++ r.status ++ "<br>Email to: " ++ r.email ++ "<br>Message ID: " ++ r._id
  | [] => "Unexpected result structure: []"

/-- Modelled from the spec: the presentation contract of spec section 6 —
"a human-readable multi-line status string (one line per recipient,
<address>: <status>)", lines joined the way the app joins them. -/
def specStatusLines (result : List RecipientResult) : String :=
  String.intercalate "<br>" (result.map (fun r => r.email ++ ": " ++ r.status))

/- ### Attachments (`send_email_with_attachments`, app.py lines 156-220) -/

/-- One base64 character (`base64.b64encode` alphabet). -/
def b64char (n : Nat) : Char :=
  "ABCDEFGHIJKLMNOPQRSTUVWXYZabcdefghijklmnopqrstuvwxyz0123456789+/".toList.getD n "A".toList.head!

/-- `base64.b64encode` on a byte sequence (bytes as numbers below 256),
rendered as a string as the code does with `.decode('utf-8')`. -/
def base64Encode : List Nat → String
  | [] => ""
  | [a] =>
      String.mk [b64char (a / 4), b64char (a % 4 * 16)] ++ "=="
  | [a, b] =>
      String.mk [b64char (a / 4), b64char (a % 4 * 16 + b / 16), b64char (b % 16 * 4)] ++ "="
  | a :: b :: c :: rest =>
      String.mk [b64char (a / 4), b64char (a % 4 * 16 + b / 16),
        b64char (b % 16 * 4 + c / 64), b64char (c % 64)] ++ base64Encode rest

/-- Python `s.encode('utf-8')` as a byte list. -/
def utf8Bytes (s : String) : List Nat :=
  s.toUTF8.toList.map (fun b => b.toNat)

/-- A `{'type', 'name', 'content'}` attachment dict. -/
structure Attachment : Type where
  type : String
  name : String
  content : String
deriving DecidableEq

/-- The attachment-list construction of `send_email_with_attachments`
(app.py lines 175-196).  `samplePdf` is the local filesystem boundary:
`none` = `sample.pdf` absent, `some bs` = present with bytes `bs`; `now` is
`datetime.utcnow().isoformat()`.  Faithful to the code, the PDF is attached
only when the base64 string `pdf_content` is truthy (non-empty). -/
def send_email_with_attachments_attachments (samplePdf : Option (List Nat))
    (now : String) : List Attachment :=
  let pdf_content := match samplePdf with
    | some bs => base64Encode bs
    | none => ""
  let text_content :=
    "This is a demo text file created by the Mandrill Use Case File.\n\nGenerated at: " ++ now
  let text_base64 := base64Encode (utf8Bytes text_content)
  (if pdf_content != "" then
    [{ type := "application/pdf", name := "sample.pdf", content := pdf_content }]
  else []) ++
  [{ type := "text/plain", name := "readme.txt", content := text_base64 }]

/-- The `message` dict of `send_email_with_attachments`
(app.py lines 197-210). -/
structure AttachMessage : Type where
  html : String
  text : String
  subject : String
  from_email : String
  from_name : String
  «to» : List Recipient
  attachments : List Attachment
  tags : List String
deriving DecidableEq

/-- `send_email_with_attachments`' payload construction, app.py lines
175-210. -/
def send_email_with_attachments_message (cfg : Config)
    (samplePdf : Option (List Nat)) (now : String) : AttachMessage :=
  { html := "<h1>Your Documents</h1><p>Please find the attached files.</p>"
    text := "Your documents are attached."
    subject := "Documents Attached"
    from_email := cfg.DEFAULT_FROM_EMAIL
    from_name := cfg.DEFAULT_FROM_NAME
    «to» := [{ email := cfg.DEFAULT_TO_EMAIL, name := cfg.DEFAULT_TO_NAME, type := "to" }]
    attachments := send_email_with_attachments_attachments samplePdf now
    tags := ["attachments", "outbound-documents"] }

/- ### SMS (`src/FlaskApp/sms_single_recipient.py`) -/

/-- The slice of a `requests` response that `send_sms` reads:
`status_code` and the parsed `response.json()` body (`none` = parsing
raised). -/
structure HttpResponse : Type where
  status_code : Nat
  jsonBody : Option PyObj

/-- The `payload` dict built by `send_sms` (sms_single_recipient.py lines
62-80); `from_phone` models the payload's `from` key. -/
structure SmsPayload : Type where
  key : String
  text : String
  «to» : String
  from_phone : String
  consent : String
  track_clicks : Bool
deriving DecidableEq

/-- Python `arg or os.getenv(key, dflt)` for an optional string argument:
a falsy argument (absent or empty) falls back to the environment. -/
def orEnvD (env : String → Option String) (arg : Option String)
    (key dflt : String) : String :=
  match arg with
  | some s => if s != "" then s else getenvD env key dflt
  | none => getenvD env key dflt

/-- The payload construction of `send_sms`, lines 62-80.  `track_clicks`
uses an `is not None` test, not truthiness. -/
def buildSmsPayload (env : String → Option String) (api_key : String)
    («to» from_phone text consent : Option String)
    (track_clicks : Option Bool) : SmsPayload :=
  { key := api_key
    text := orEnvD env text "SMS_MESSAGE" "Hello from Mandrill SMS! This is a test message."
    «to» := orEnvD env «to» "SMS_TO_PHONE" "+1234567890"
    from_phone := orEnvD env from_phone "SMS_FROM_PHONE" "+0987654321"
    consent := orEnvD env consent "SMS_CONSENT_TYPE" "onetime"
    track_clicks :=
      match track_clicks with
      | some b => b
      | none => (getenvD env "SMS_TRACK_CLICKS" "false").toLower == "true" }

/-- The detail-printing block of `send_sms` (lines 107-122) raises an
`AttributeError` exactly when the 200-response body is a non-empty list
whose first element is not a dict (`result[0].get(...)` on a non-dict). -/
def smsDetailRaises : PyObj → Bool
  | .pyList (first :: _) =>
      match first with
      | .pyDict _ => false
      | _ => true
  | _ => false

/-- `send_sms` from sms_single_recipient.py lines 41-161.  `post` is the
`requests.post` boundary, mapping the built payload to the response
(`.error` = SSL/timeout/other raise; all three `except` handlers return
`None`).  Returns the Python return value: the parsed body on a clean
HTTP 200, `None` otherwise. -/
def send_sms (env : String → Option String)
    (post : SmsPayload → Except Unit HttpResponse)
    («to» from_phone text consent : Option String)
    (track_clicks : Option Bool) : Option PyObj :=
  match env "MANDRILL_API_KEY" with
  | none => none
  | some api_key =>
    if api_key == "" then none
    else
      let payload := buildSmsPayload env api_key «to» from_phone text consent track_clicks
      match post payload with
      | .error _ => none
      | .ok r =>
        if r.status_code == 200 then
          match r.jsonBody with
          | none => none
          | some result => if smsDetailRaises result then none else some result
        else none

/-- The dict returned by `send_sms_with_error_handling`. -/
inductive SmsOutcome : Type where
  | successData (data : PyObj) : SmsOutcome
  | failure (error : String) : SmsOutcome

/-- Python f-string interpolation of a value: exact for scalars; for
containers and bytes (whose Python `repr` is library behaviour no claim
exercises) it defers to the oracle `strOracle`. -/
def pyFStr (strOracle : PyObj → String) : PyObj → String
  | .pyNone => "None"
  | .pyBool b => if b then "True" else "False"
  | .pyInt n => toString n
  | .pyStr s => s
  | v => strOracle v

/-- `send_sms_with_error_handling` from sms_single_recipient.py lines
164-190, composed over `send_sms` as in the source (`track_clicks` is not
passed).  `result[0].get('status')` on a non-dict first element would raise
(`.error`); `send_sms` never returns such a value. -/
def send_sms_with_error_handling (env : String → Option String)
    (post : SmsPayload → Except Unit HttpResponse) (strOracle : PyObj → String)
    (to_phone from_phone message_text consent_type : String) :
    Except Unit SmsOutcome :=
  let result := send_sms env post (some to_phone) (some from_phone)
    (some message_text) (some consent_type) none
  match result with
  | none => .ok (.failure "Failed to send SMS")
  | some v =>
    if pyTruthy v then
      match v with
      | .pyList (first :: _) =>
          match first with
          | .pyDict fields =>
              match pyDictGet fields "status" with
              | some (.pyStr s) =>
                  if s == "rejected" then
                    .ok (.failure ("Rejected: " ++
                      pyFStr strOracle ((pyDictGet fields "reject_reason").getD (.pyStr "Unknown reason"))))
                  else .ok (.successData v)
              | _ => .ok (.successData v)
          | _ => .error ()
      | _ => .ok (.successData v)
    else .ok (.failure "Failed to send SMS")

/-- The form submission of the C6 scenario. -/
def mergeTagsForm : String → Option String := fun k =>
  if k == "firstName" then some "Ann"
  else if k == "lastName" then some "Lee"
  else if k == "companyName" then some "Acme"
  else if k == "membershipLevel" then some "Gold"
  else none

/- ### Spec-side notions for the characterization of app.py's
`template_exists` -/

/-- Whether a listing entry survives the per-entry decode step. -/
def entryDecodesOk (loads : String → Option PyObj)
    (utf8 : List Nat → Option String) (t : PyObj) : Bool :=
  match entryDecode loads utf8 t with
  | .ok _ => true
  | .error _ => false

/-- Whether a listing entry, after its decode step, is a dict carrying the
queried name. -/
def entryMatchAfterDecode (loads : String → Option PyObj)
    (utf8 : List Nat → Option String) (template_name : String) (t : PyObj) : Bool :=
  match entryDecode loads utf8 t with
  | .ok t2 => entryIsMatch template_name t2
  | .error _ => false

/-- The decoded top-level response when it is a list: the members the
`for` loop would visit. -/
def decodedList (loads : String → Option PyObj)
    (utf8 : List Nat → Option String) (t0 : PyObj) : Option (List PyObj) :=
  match topDecode loads utf8 t0 with
  | .ok (.pyList ts) => some ts
  | _ => none

/-- The listing entries of the C9 counterexample: a non-JSON string entry
followed by a dict entry carrying the queried name. -/
def cexEntries : List PyObj :=
  [.pyStr "not json", .pyDict [("name", .pyStr "template1")]]

/-- Spec-side notion for C10: the send result is a non-empty list whose
first entry is a dict with status `rejected`. -/
def firstRejected : PyObj → Bool
  | .pyList (.pyDict fields :: _) =>
      match pyDictGet fields "status" with
      | some (.pyStr s) => s == "rejected"
      | _ => false
  | _ => false

/-- An environment holding only the Mandrill API key. -/
def smsEnv : String → Option String :=
  fun k => if k == "MANDRILL_API_KEY" then some "test-api-key" else none

/-- A post boundary answering HTTP 200 with the empty JSON list. -/
def emptyListPost : SmsPayload → Except Unit HttpResponse :=
  fun _ => .ok { status_code := 200, jsonBody := some (.pyList []) }

/-- A post boundary answering HTTP 200 with one rejected recipient. -/
def rejectedPost : SmsPayload → Except Unit HttpResponse :=
  fun _ => .ok { status_code := 200,
                 jsonBody := some (.pyList [.pyDict [("status", .pyStr "rejected")]]) }

/-- A str() oracle for container values (never consulted here). -/
def strOracle0 : PyObj → String := fun _ => ""

/- ## Concrete fixtures used by counterexamples and witnesses -/

/-- An empty environment (no variables set). -/
def noEnv : String → Option String := fun _ => none

/-- A `json.loads` oracle that fails on every input (as the real parser
does on the strings these fixtures feed it). -/
def loads0 : String → Option PyObj := fun _ => none

/-- A UTF-8 decode oracle; never consulted by the fixtures below. -/
def utf80 : List Nat → Option String := fun _ => none

/-- The duplication message `create_template.py` line 69 greps for. -/
def dupText : String := "A template with that name already exists"

/-- A remote whose listing is empty and whose create call is rejected with
the duplication message (the "already exists" race). -/
def cexRemoteDup : Remote :=
  { listResult := .ok []
    addResult := fun _ => .error { text := dupText } }

/-- A remote that already holds `hello-template` (a name the local registry
does not define; `create_template.py` creates it). -/
def cexRemoteHello : Remote :=
  { listResult := .ok [{ name := "hello-template" }]
    addResult := fun _ => .error { text := "add not expected" } }

/-- A remote whose listing call raises (transport failure) and whose create
call succeeds. -/
def failRemote : Remote :=
  { listResult := .error { text := "connection timeout" }
    addResult := fun _ => .ok { name := "template1", slug := "template1",
                                created_at := none, publish_name := none } }

/-- A remote that already holds `template1`. -/
def existsRemote : Remote :=
  { listResult := .ok [{ name := "template1" }]
    addResult := fun _ => .error { text := "add not expected" } }

/-- An app-side listing response already holding `template1`. -/
def existsResp : Except Unit PyObj :=
  .ok (.pyList [.pyDict [("name", .pyStr "template1")]])

/- ## Claims -/

/-- C1 counterexample: with an empty remote listing and a create call
rejected with the duplication message, `ensure_template_exists` returns
`False` — the rejection reason indicating duplication is NOT treated as
success. -/
theorem ensure_duplicate_rejection_cex :
    pyInStr dupText dupText = true ∧
    (ensure_template_exists cexRemoteDup noEnv "template1").1 = false := by
  decide

/-- C1 (amended): whenever the existence check reports absence, the
identifier is in the registry, and the remote create call is rejected,
`ensure_template_exists` surfaces the failure (returns `False` with the
error text) for EVERY rejection reason, duplication included; likewise
`create_template` returns `None` on every rejection — its duplication
check only selects an extra printed hint. -/
theorem ensure_rejection_surfaces_failure
    (remote : Remote) (env : String → Option String) (template_name : String)
    (p : String × TemplateDef) (e e2 : ApiError)
    (hnot : template_exists remote template_name = false)
    (hreg : TEMPLATES.find? (fun q => q.1 == template_name) = some p)
    (hadd : remote.addResult (buildTemplateData env p.2) = .error e)
    (hadd2 : remote.addResult (helloTemplateData env) = .error e2) :
    ensure_template_exists remote env template_name =
      (false, [Call.list, Call.add], ["Error creating template: " ++ e.text]) ∧
    (create_template remote env).1 = none := by
  constructor
  · unfold ensure_template_exists
    rw [hnot, hreg]
    simp only [Bool.false_eq_true, if_false]
    rw [hadd]
  · unfold create_template
    rw [hadd2]

/-- C1 witness: the amended theorem applied to the duplication-rejection
fixture. -/
theorem ensure_rejection_surfaces_failure_witness :
    ensure_template_exists cexRemoteDup noEnv "template1" =
      (false, [Call.list, Call.add],
       ["Error creating template: A template with that name already exists"]) ∧
    (create_template cexRemoteDup noEnv).1 = none :=
  ensure_rejection_surfaces_failure cexRemoteDup noEnv "template1"
    ("template1", template1Def) { text := dupText } { text := dupText }
    rfl rfl rfl rfl

/-- C2 counterexample: `hello-template` is absent from the local registry,
yet `ensure_template_exists` both performs the remote listing call and
returns success when the remote already holds that name — it neither fails
nor avoids network traffic. -/
theorem ensure_unknown_template_cex :
    TEMPLATES.find? (fun q => q.1 == "hello-template") = none ∧
    ensure_template_exists cexRemoteHello noEnv "hello-template" =
      (true, [Call.list], ["Template \"hello-template\" already exists."]) := by
  decide

/-- C2 (amended): for an identifier absent from the local registry the
remote listing query is still performed first; only if that existence check
reports absence does the operation fail with the local "Unknown template"
error, and it then performs no remote create call; if the check reports
existence the operation returns success instead. -/
theorem ensure_unknown_template_behavior
    (remote : Remote) (env : String → Option String) (template_name : String)
    (hreg : TEMPLATES.find? (fun q => q.1 == template_name) = none) :
    (template_exists remote template_name = false →
      ensure_template_exists remote env template_name =
        (false, [Call.list], ["Unknown template: " ++ template_name])) ∧
    (template_exists remote template_name = true →
      (ensure_template_exists remote env template_name).1 = true) := by
  constructor <;> intro h <;> unfold ensure_template_exists <;> rw [h, hreg] <;> simp

/-- C2 witness: the amended theorem at a concrete registry-absent name,
with a remote listing that does not hold it. -/
theorem ensure_unknown_template_behavior_witness :
    (template_exists cexRemoteDup "hello-template" = false →
      ensure_template_exists cexRemoteDup noEnv "hello-template" =
        (false, [Call.list], ["Unknown template: " ++ "hello-template"])) ∧
    (template_exists cexRemoteDup "hello-template" = true →
      (ensure_template_exists cexRemoteDup noEnv "hello-template").1 = true) :=
  ensure_unknown_template_behavior cexRemoteDup noEnv "hello-template" rfl

/-- C3: when the remote listing query raises, `template_exists` returns
`False` (fail-open), and for a registry-known identifier
`ensure_template_exists` consequently proceeds to the create branch (the
trace contains the create call); app.py's own `template_exists` likewise
returns `False` when its listing call raises. -/
theorem template_exists_fail_open
    (remote : Remote) (env : String → Option String) (template_name : String)
    (e : ApiError) (loads : String → Option PyObj)
    (utf8 : List Nat → Option String)
    (hlist : remote.listResult = .error e)
    (hreg : (TEMPLATES.find? (fun q => q.1 == template_name)).isSome) :
    template_exists remote template_name = false ∧
    Call.add ∈ (ensure_template_exists remote env template_name).2.1 ∧
    template_exists_app loads utf8 template_name (.error ()) = false := by
  have hte : template_exists remote template_name = false := by
    unfold template_exists
    rw [hlist]
  refine ⟨hte, ?_, rfl⟩
  unfold ensure_template_exists
  rw [hte]
  simp only [Bool.false_eq_true, if_false]
  obtain ⟨p, hp⟩ := Option.isSome_iff_exists.mp hreg
  rw [hp]
  cases hA : remote.addResult (buildTemplateData env p.2) <;> simp [hA]

/-- C3 witness: the fail-open theorem at a raising remote and the
registry-known identifier `template1`. -/
theorem template_exists_fail_open_witness :
    template_exists failRemote "template1" = false ∧
    Call.add ∈ (ensure_template_exists failRemote noEnv "template1").2.1 ∧
    template_exists_app loads0 utf80 "template1" (.error ()) = false :=
  template_exists_fail_open failRemote noEnv "template1"
    { text := "connection timeout" } loads0 utf80 rfl rfl

/-- C4: when the existence check reports existence, both
`ensure_template_exists` and app.py's `createTemplate` return success
immediately with only the listing call in their trace (no remote create),
and tell the caller no new template was created. -/
theorem ensure_existing_no_mutation
    (remote : Remote) (env : String → Option String) (template_name : String)
    (loads : String → Option PyObj) (utf8 : List Nat → Option String)
    (resp : Except Unit PyObj) (addR : TemplateData → Except ApiError AddResponse)
    (h1 : template_exists remote template_name = true)
    (h2 : template_exists_app loads utf8 template_name resp = true) :
    ensure_template_exists remote env template_name =
      (true, [Call.list], ["Template \"" ++ template_name ++ "\" already exists."]) ∧
    createTemplate loads utf8 resp addR env template_name =
      ([Call.list],
       [{ text := "Template \"" ++ template_name ++ "\" already exists. No new template created."
          category := "warning" }]) := by
  constructor
  · unfold ensure_template_exists
    rw [h1]
    simp
  · unfold createTemplate
    rw [h2]
    simp

/-- C4 witness: the theorem at remotes already holding `template1`. -/
theorem ensure_existing_no_mutation_witness :
    ensure_template_exists existsRemote noEnv "template1" =
      (true, [Call.list], ["Template \"" ++ "template1" ++ "\" already exists."]) ∧
    createTemplate loads0 utf80 existsResp cexRemoteHello.addResult noEnv "template1" =
      ([Call.list],
       [{ text := "Template \"" ++ "template1" ++ "\" already exists. No new template created."
          category := "warning" }]) :=
  ensure_existing_no_mutation existsRemote noEnv "template1" loads0 utf80
    existsResp cexRemoteHello.addResult rfl rfl

/-- C5: with no form overrides, the "single send" payload has subject
`Hello world`, an HTML body containing `Hello HTML world!`, and exactly one
`to` recipient equal to the configured default recipient address and name. -/
theorem send_single_email_payload_defaults (cfg : Config) :
    (send_single_email_message cfg).subject = "Hello world" ∧
    (∃ a b, (send_single_email_message cfg).html = a ++ "Hello HTML world!" ++ b) ∧
    (send_single_email_message cfg).«to» =
      [{ email := cfg.DEFAULT_TO_EMAIL, name := cfg.DEFAULT_TO_NAME, type := "to" }] :=
  ⟨rfl, ⟨"<p>", " from Mailchimp transactional API Demo</p>", rfl⟩, rfl⟩

/-- C6: the merge-tag payload built from the form `firstName=Ann,
lastName=Lee, companyName=Acme, membershipLevel=Gold` carries
`company_name=Acme` and `membership_level=Gold` as global merge variables,
and `fname=Ann`, `lname=Lee` in the merge-variable entry for the default
recipient. -/
theorem merge_tags_payload_form_fields (cfg : Config) :
    ({ name := "company_name", content := "Acme" } : MergeVar) ∈
      (send_email_with_merge_tags_message cfg mergeTagsForm).global_merge_vars ∧
    ({ name := "membership_level", content := "Gold" } : MergeVar) ∈
      (send_email_with_merge_tags_message cfg mergeTagsForm).global_merge_vars ∧
    ∃ rv ∈ (send_email_with_merge_tags_message cfg mergeTagsForm).merge_vars,
      rv.rcpt = cfg.DEFAULT_TO_EMAIL ∧
      ({ name := "fname", content := "Ann" } : MergeVar) ∈ rv.vars ∧
      ({ name := "lname", content := "Lee" } : MergeVar) ∈ rv.vars := by
  refine ⟨?_, ?_, ?_⟩ <;>
    simp [send_email_with_merge_tags_message, mergeTagsForm, formGetD]

/-- C7 counterexample: a single-element remote result renders as
`send_email_with_merge_tags to : x@example.org: sent` in the merge-tag
scenario (not `x@example.org: sent`), and the single-send scenario renders
a `Status/Email/Message ID` block instead of `<address>: <status>` lines. -/
theorem status_line_format_cex :
    send_email_with_merge_tags_status
        [{ email := "x@example.org", status := "sent", _id := "abc123" }] =
      "send_email_with_merge_tags to : x@example.org: sent" ∧
    send_email_with_merge_tags_status
        [{ email := "x@example.org", status := "sent", _id := "abc123" }] ≠
      "x@example.org: sent" ∧
    send_single_email_status
        [{ email := "x@example.org", status := "sent", _id := "abc123" }] =
      "Status: sent<br>Email to: x@example.org<br>Message ID: abc123" := by
  refine ⟨by decide, by decide, by decide⟩

/-- C7 (amended): the attachment, kitchen-sink and template send scenarios
render a list result exactly as the spec's presentation contract (one
`<address>: <status>` line per recipient); on the scenario input that
contract renders `x@example.org: sent`.  The merge-tag scenario prefixes
every line with `send_email_with_merge_tags to : `, and the single-send
scenario reports only the first recipient as a `Status/Email/Message ID`
block (see the counterexample). -/
theorem per_recipient_status_renderings (result : List RecipientResult) :
    send_email_with_attachments_status result = specStatusLines result ∧
    send_bulk_email_status result = specStatusLines result ∧
    send_email_with_template_status result = specStatusLines result ∧
    specStatusLines [{ email := "x@example.org", status := "sent", _id := "abc123" }] =
      "x@example.org: sent" :=
  ⟨rfl, rfl, rfl, by decide⟩

/-- Helper for C8: the base64 encoding of a non-empty byte sequence is a
non-empty string. -/
theorem base64Encode_cons_ne_empty (a : Nat) (rest : List Nat) :
    base64Encode (a :: rest) ≠ "" := by
  match rest with
  | [] => simp [base64Encode, String.congr_append, String.ext_iff]
  | [b] => simp [base64Encode, String.congr_append, String.ext_iff]
  | b :: c :: rest2 => simp [base64Encode, String.congr_append, String.ext_iff]

/-- C8 counterexample: an existing but empty `sample.pdf` (file present,
zero bytes) yields an attachment list with no PDF attachment — the builder
tests the base64 string for truthiness, so "contains the PDF attachment if
and only if the file exists" fails. -/
theorem attachments_empty_pdf_cex :
    (some ([] : List Nat)).isSome = true ∧
    (send_email_with_attachments_attachments (some []) "2024-01-01T00:00:00").all
        (fun a => a.name != "sample.pdf") = true := by
  constructor
  · rfl
  · rfl

/-- C8 (amended): the attachment builder always returns a payload whose
list contains the dynamically generated text file, and contains the PDF
attachment if and only if `sample.pdf` exists AND is non-empty (an existing
empty file is silently omitted like an absent one). -/
theorem attachments_pdf_iff_nonempty (samplePdf : Option (List Nat)) (now : String) :
    (∃ a ∈ send_email_with_attachments_attachments samplePdf now,
        a.name = "readme.txt" ∧ a.type = "text/plain") ∧
    ((∃ a ∈ send_email_with_attachments_attachments samplePdf now, a.name = "sample.pdf") ↔
      ∃ bs, samplePdf = some bs ∧ bs ≠ []) := by
  match samplePdf with
  | none => simp [send_email_with_attachments_attachments, base64Encode]
  | some [] => simp [send_email_with_attachments_attachments, base64Encode]
  | some (a :: rest) =>
      have h := base64Encode_cons_ne_empty a rest
      simp [send_email_with_attachments_attachments, h]

/-- Bind on a raised `Except` computation propagates the exception. -/
theorem errorBind {A B : Type} (e : Unit) (k : A → Except Unit B) :
    (Except.error e >>= k) = Except.error e := rfl

/-- Bind on a successful `Except` computation continues with its value. -/
theorem okBind {A B : Type} (a : A) (k : A → Except Unit B) :
    (Except.ok a >>= k) = k a := rfl

/-- The `try`/`except` wrapper yields `true` exactly when the guarded body
returns `true` without raising. -/
theorem run_true_iff (r : Except Unit Bool) :
    (match r with | .ok b => b | .error _ => false) = true ↔ r = .ok true := by
  cases r with
  | ok b => cases b <;> simp
  | error e => simp

/-- The listing scan succeeds with `true` exactly when some entry matching
the queried name occurs with every earlier entry decodable. -/
theorem scanEntries_eq_true_iff (loads : String → Option PyObj)
    (utf8 : List Nat → Option String) (template_name : String) (ts : List PyObj) :
    scanEntries loads utf8 template_name ts = .ok true ↔
    ∃ pre t post, ts = pre ++ t :: post ∧
      (∀ x ∈ pre, entryDecodesOk loads utf8 x = true) ∧
      entryMatchAfterDecode loads utf8 template_name t = true := by
  induction ts with
  | nil =>
      constructor
      · intro h
        simp [scanEntries] at h
      · rintro ⟨pre, t, post, habs, -, -⟩
        exact absurd habs (by simp)
  | cons t rest ih =>
      rw [scanEntries]
      cases hd : entryDecode loads utf8 t with
      | error e =>
          rw [errorBind]
          constructor
          · intro h
            cases h
          · rintro ⟨pre, t2, post, heq, hpre, hmatch⟩
            cases pre with
            | nil =>
                simp at heq
                obtain ⟨rfl, -⟩ := heq
                simp only [entryMatchAfterDecode, hd] at hmatch
                cases hmatch
            | cons p pre2 =>
                simp at heq
                obtain ⟨rfl, -⟩ := heq
                have hok := hpre t (by simp)
                simp only [entryDecodesOk, hd] at hok
                cases hok
      | ok t2 =>
          rw [okBind]
          by_cases hm : entryIsMatch template_name t2 = true
          · constructor
            · intro _
              refine ⟨[], t, rest, by simp, by simp, ?_⟩
              simp only [entryMatchAfterDecode, hd]
              exact hm
            · intro _
              simp [hm]
          · simp only [Bool.not_eq_true] at hm
            simp only [hm, Bool.false_eq_true, if_false]
            rw [ih]
            constructor
            · rintro ⟨pre, t3, post, rfl, hpre, hmatch⟩
              refine ⟨t :: pre, t3, post, by simp, ?_, hmatch⟩
              intro x hx
              rcases List.mem_cons.mp hx with rfl | hx2
              · simp [entryDecodesOk, hd]
              · exact hpre x hx2
            · rintro ⟨pre, t3, post, heq, hpre, hmatch⟩
              cases pre with
              | nil =>
                  simp at heq
                  obtain ⟨rfl, rfl⟩ := heq
                  simp only [entryMatchAfterDecode, hd] at hmatch
                  rw [hmatch] at hm
                  cases hm
              | cons p pre2 =>
                  simp at heq
                  obtain ⟨rfl, rfl⟩ := heq
                  exact ⟨pre2, t3, post, rfl, fun x hx => hpre x (by simp [hx]), hmatch⟩

/-- C9 (amended): app.py's `template_exists` is total (an exception from
the listing call, a decode failure, or an unexpected shape all yield
`false` rather than propagating), and it returns `true` exactly when the
response is delivered (possibly as bytes or a JSON string decoding to a
list) and some entry that is — or decodes to — a dict with the queried
name occurs before any entry whose decoding fails. -/
theorem template_exists_app_true_iff (loads : String → Option PyObj)
    (utf8 : List Nat → Option String) (template_name : String)
    (resp : Except Unit PyObj) :
    template_exists_app loads utf8 template_name resp = true ↔
    ∃ t0 ts, resp = .ok t0 ∧ decodedList loads utf8 t0 = some ts ∧
      ∃ pre t post, ts = pre ++ t :: post ∧
        (∀ x ∈ pre, entryDecodesOk loads utf8 x = true) ∧
        entryMatchAfterDecode loads utf8 template_name t = true := by
  have base : template_exists_app loads utf8 template_name resp = true ↔
      templateExistsAppRun loads utf8 template_name resp = .ok true := by
    rw [template_exists_app]
    exact run_true_iff _
  rw [base]
  cases resp with
  | error e =>
      rw [templateExistsAppRun, errorBind]
      simp
  | ok t0 =>
      rw [templateExistsAppRun, okBind]
      cases t0 with
      | pyNone =>
          simp [debugStep, okBind, topDecode, decodedList]
      | pyBool b =>
          cases b <;>
            simp [debugStep, okBind, errorBind, topDecode, decodedList]
      | pyInt n =>
          by_cases hn : n = 0 <;>
            simp [debugStep, hn, okBind, errorBind, topDecode, decodedList]
      | pyStr s =>
          cases hl : loads s with
          | none =>
              simp [debugStep, okBind, errorBind, topDecode, hl, decodedList]
          | some v =>
              cases v <;>
                simp [debugStep, okBind, errorBind, topDecode, hl, decodedList,
                  scanEntries_eq_true_iff]
      | pyBytes content =>
          cases hu : utf8 content with
          | none =>
              simp [debugStep, okBind, errorBind, topDecode, hu, decodedList]
          | some s =>
              cases hl : loads s with
              | none =>
                  simp [debugStep, okBind, errorBind, topDecode, hu, hl, decodedList]
              | some v =>
                  cases v <;>
                    simp [debugStep, okBind, errorBind, topDecode, hu, hl, decodedList,
                      scanEntries_eq_true_iff]
      | pyList ts =>
          simp [debugStep, okBind, topDecode, decodedList, scanEntries_eq_true_iff]
      | pyDict fields =>
          cases fields <;>
            simp [debugStep, okBind, errorBind, topDecode, decodedList]

/-- C9 counterexample: the response list holds a decoded (dict) entry whose
name equals the queried identifier, yet `template_exists` returns `false`,
because the earlier entry's `json.loads` raises and aborts the scan — the
"true exactly when some decoded entry matches" reading fails. -/
theorem template_exists_app_entry_decode_cex :
    template_exists_app loads0 utf80 "template1" (.ok (.pyList cexEntries)) = false ∧
    ∃ t ∈ cexEntries, entryIsMatch "template1" t = true := by
  constructor
  · rfl
  · exact ⟨.pyDict [("name", .pyStr "template1")], by simp [cexEntries], by rfl⟩

/-- Every value `send_sms` returns has already passed its detail-printing
block, so a non-empty list result always has a dict first entry. -/
theorem send_sms_detail_ok (env : String → Option String)
    (post : SmsPayload → Except Unit HttpResponse)
    (a b c d : Option String) (e : Option Bool) (v : PyObj)
    (h : send_sms env post a b c d e = some v) : smsDetailRaises v = false := by
  unfold send_sms at h
  dsimp only at h
  split at h
  · cases h
  · split at h
    · cases h
    · split at h
      · cases h
      · split at h
        · split at h
          · cases h
          · split at h
            · cases h
            · rename_i hdet
              injection h with h2
              subst h2
              simpa using hdet
        · cases h

/-- C10 (amended): the SMS wrapper never raises, and returns success=false
exactly when the underlying send returns `None` OR a falsy result (e.g. an
empty list) OR a non-empty list whose first entry has status `rejected`;
in the rejected case the error message carries the `reject_reason`,
defaulting to `Unknown reason` when the key is absent.  Every truthy,
non-rejected result yields success=true. -/
theorem sms_error_handling_characterization (env : String → Option String)
    (post : SmsPayload → Except Unit HttpResponse) (strOracle : PyObj → String)
    (to_phone from_phone message_text consent_type : String) :
    (∃ out, send_sms_with_error_handling env post strOracle to_phone from_phone
        message_text consent_type = .ok out) ∧
    ((∃ msg, send_sms_with_error_handling env post strOracle to_phone from_phone
        message_text consent_type = .ok (.failure msg)) ↔
      (send_sms env post (some to_phone) (some from_phone) (some message_text)
          (some consent_type) none = none ∨
       ∃ v, send_sms env post (some to_phone) (some from_phone) (some message_text)
          (some consent_type) none = some v ∧
          (!pyTruthy v || firstRejected v) = true)) ∧
    (∀ fields rest,
      send_sms env post (some to_phone) (some from_phone) (some message_text)
          (some consent_type) none = some (.pyList (.pyDict fields :: rest)) →
      pyDictGet fields "status" = some (.pyStr "rejected") →
      (pyDictGet fields "reject_reason" = none →
          send_sms_with_error_handling env post strOracle to_phone from_phone
            message_text consent_type = .ok (.failure "Rejected: Unknown reason")) ∧
      (∀ s, pyDictGet fields "reject_reason" = some (.pyStr s) →
          send_sms_with_error_handling env post strOracle to_phone from_phone
            message_text consent_type = .ok (.failure ("Rejected: " ++ s)))) := by
  cases hv : send_sms env post (some to_phone) (some from_phone) (some message_text)
      (some consent_type) none with
  | none =>
      refine ⟨?_, ?_, ?_⟩
      · simp [send_sms_with_error_handling, hv]
      · simp [send_sms_with_error_handling, hv]
      · simp [hv]
  | some v =>
      have hdet := send_sms_detail_ok env post (some to_phone) (some from_phone)
        (some message_text) (some consent_type) none v hv
      cases v with
      | pyNone =>
          refine ⟨?_, ?_, ?_⟩ <;>
            simp [send_sms_with_error_handling, hv, pyTruthy, firstRejected]
      | pyBool b =>
          cases b <;> refine ⟨?_, ?_, ?_⟩ <;>
            simp [send_sms_with_error_handling, hv, pyTruthy, firstRejected]
      | pyInt n =>
          by_cases hn : n = 0 <;> refine ⟨?_, ?_, ?_⟩ <;>
            simp [send_sms_with_error_handling, hv, pyTruthy, firstRejected, hn]
      | pyStr s =>
          by_cases hs : s = "" <;> refine ⟨?_, ?_, ?_⟩ <;>
            simp [send_sms_with_error_handling, hv, pyTruthy, firstRejected, hs]
      | pyBytes content =>
          cases content <;> refine ⟨?_, ?_, ?_⟩ <;>
            simp [send_sms_with_error_handling, hv, pyTruthy, firstRejected]
      | pyDict fields =>
          cases fields <;> refine ⟨?_, ?_, ?_⟩ <;>
            simp [send_sms_with_error_handling, hv, pyTruthy, firstRejected]
      | pyList xs =>
          cases xs with
          | nil =>
              refine ⟨?_, ?_, ?_⟩ <;>
                simp [send_sms_with_error_handling, hv, pyTruthy, firstRejected]
          | cons first rest0 =>
              cases first with
              | pyDict fields =>
                  cases hst : pyDictGet fields "status" with
                  | none =>
                      refine ⟨?_, ?_, ?_⟩ <;>
                        simp [send_sms_with_error_handling, hv, pyTruthy,
                          firstRejected, hst]
                  | some u =>
                      cases u with
                      | pyStr s =>
                          by_cases hrej : s = "rejected"
                          · subst hrej
                            cases hrr : pyDictGet fields "reject_reason" with
                            | none =>
                                refine ⟨?_, ?_, ?_⟩ <;>
                                  simp [send_sms_with_error_handling, hv, pyTruthy,
                                    firstRejected, hst, hrr, pyFStr]
                            | some w =>
                                refine ⟨?_, ?_, ?_⟩ <;>
                                  simp [send_sms_with_error_handling, hv, pyTruthy,
                                    firstRejected, hst, hrr, pyFStr]
                                rintro s rfl
                                rfl
                          · refine ⟨?_, ?_, ?_⟩ <;>
                              simp [send_sms_with_error_handling, hv, pyTruthy,
                                firstRejected, hst, hrej]
                      | pyNone =>
                          refine ⟨?_, ?_, ?_⟩ <;>
                            simp [send_sms_with_error_handling, hv, pyTruthy,
                              firstRejected, hst]
                      | pyBool b =>
                          refine ⟨?_, ?_, ?_⟩ <;>
                            simp [send_sms_with_error_handling, hv, pyTruthy,
                              firstRejected, hst]
                      | pyInt n =>
                          refine ⟨?_, ?_, ?_⟩ <;>
                            simp [send_sms_with_error_handling, hv, pyTruthy,
                              firstRejected, hst]
                      | pyBytes content =>
                          refine ⟨?_, ?_, ?_⟩ <;>
                            simp [send_sms_with_error_handling, hv, pyTruthy,
                              firstRejected, hst]
                      | pyList ys =>
                          refine ⟨?_, ?_, ?_⟩ <;>
                            simp [send_sms_with_error_handling, hv, pyTruthy,
                              firstRejected, hst]
                      | pyDict gs =>
                          refine ⟨?_, ?_, ?_⟩ <;>
                            simp [send_sms_with_error_handling, hv, pyTruthy,
                              firstRejected, hst]
              | pyNone => simp [smsDetailRaises] at hdet
              | pyBool b => simp [smsDetailRaises] at hdet
              | pyInt n => simp [smsDetailRaises] at hdet
              | pyStr s => simp [smsDetailRaises] at hdet
              | pyBytes content => simp [smsDetailRaises] at hdet
              | pyList ys => simp [smsDetailRaises] at hdet

/-- C10 counterexample: a 200 response whose body is the empty JSON list
makes `send_sms` return a non-`None` result that is neither `None` nor a
non-empty rejected list, yet the wrapper reports success=false — the
claimed "exactly when" fails on falsy results. -/
theorem sms_empty_list_cex :
    send_sms smsEnv emptyListPost (some "+15551234567") (some "+15557654321")
        (some "hi") (some "onetime") none = some (.pyList []) ∧
    send_sms_with_error_handling smsEnv emptyListPost strOracle0
        "+15551234567" "+15557654321" "hi" "onetime" =
      .ok (.failure "Failed to send SMS") := by
  constructor <;> rfl

/-- C10 witness: the characterization applied to a concrete rejected-send
scenario. -/
theorem sms_error_handling_characterization_witness :
    (∃ out, send_sms_with_error_handling smsEnv rejectedPost strOracle0
        "+15551234567" "+15557654321" "hi" "onetime" = .ok out) ∧
    ((∃ msg, send_sms_with_error_handling smsEnv rejectedPost strOracle0
        "+15551234567" "+15557654321" "hi" "onetime" = .ok (.failure msg)) ↔
      (send_sms smsEnv rejectedPost (some "+15551234567") (some "+15557654321")
          (some "hi") (some "onetime") none = none ∨
       ∃ v, send_sms smsEnv rejectedPost (some "+15551234567") (some "+15557654321")
          (some "hi") (some "onetime") none = some v ∧
          (!pyTruthy v || firstRejected v) = true)) ∧
    (∀ fields rest,
      send_sms smsEnv rejectedPost (some "+15551234567") (some "+15557654321")
          (some "hi") (some "onetime") none = some (.pyList (.pyDict fields :: rest)) →
      pyDictGet fields "status" = some (.pyStr "rejected") →
      (pyDictGet fields "reject_reason" = none →
          send_sms_with_error_handling smsEnv rejectedPost strOracle0
            "+15551234567" "+15557654321" "hi" "onetime" =
            .ok (.failure "Rejected: Unknown reason")) ∧
      (∀ s, pyDictGet fields "reject_reason" = some (.pyStr s) →
          send_sms_with_error_handling smsEnv rejectedPost strOracle0
            "+15551234567" "+15557654321" "hi" "onetime" =
            .ok (.failure ("Rejected: " ++ s)))) :=
  sms_error_handling_characterization smsEnv rejectedPost strOracle0
    "+15551234567" "+15557654321" "hi" "onetime"
